import Mathlib

/-!
Shallow embedding of the RotatingCube3d bootstrap program
(src/main.cpp, src/CustomExceptions/Direct3dException.{h,cpp}).

The program is a linear Direct3D 11 initialization sequence followed by a
trivial event loop.  Native calls (SDL and Direct3D) are modelled by an
environment that supplies the status code each call would return; the
embedding then reproduces the exact control flow of the source: the if
checks on each HRESULT, the exception messages built at each throw site,
the output-merger binding, the viewport, and the frame loop that polls one
event, clears, and presents until a quit event is seen.
-/

/-- Windows HRESULT status code, modelled as the signed 32-bit value it
holds.  `S_OK` is 0; failure codes have the high bit set and are negative
when read as signed, which is what `std::to_string` on an HRESULT prints. -/
abbrev HRESULT := Int

/-- The success status code. -/
def S_OK : HRESULT := 0

/-- Reads a 32-bit pattern (as written in hexadecimal in documentation,
for example 0x887A0004) as the signed value an HRESULT variable holds. -/
def hresultOfBits (bits : Nat) : HRESULT :=
  if bits < 2 ^ 31 then (bits : Int) else (bits : Int) - 2 ^ 32

/-- C++ pointer arithmetic on a string literal, `lit + offset`, read back as
a NUL-terminated string.  It is well defined only for offsets between 0 and
the length of the literal (the position of the terminating NUL); any other
offset is undefined behavior, modelled as `none`. -/
def charPtrAdd (s : String) (offset : Int) : Option String :=
  if 0 ≤ offset ∧ offset ≤ (s.length : Int) then some (s.drop offset.toNat)
  else none

/-- Substring containment: `pat` occurs contiguously inside `s`. -/
def strContains (s pat : String) : Prop :=
  pat.data <:+: s.data

instance (s pat : String) : Decidable (strContains s pat) :=
  List.decidableInfix pat.data s.data

/-- Embedding of `class Direct3dException` from
src/CustomExceptions/Direct3dException.h: the constructor stores the given
`std::string` in the private field `m_errorMessage`. -/
structure Direct3dException where
  m_errorMessage : String
  deriving DecidableEq

/-- Embedding of `Direct3dException::what()` from
src/CustomExceptions/Direct3dException.cpp: returns `m_errorMessage.c_str()`,
the characters of the stored message. -/
def Direct3dException.what (e : Direct3dException) : String :=
  e.m_errorMessage

/-- SDL event type code for a quit request (`SDL_QUIT = 0x100`). -/
def SDL_QUIT : Nat := 256

/-- An SDL event as the frame loop inspects it: only its `type` field. -/
structure SDL_Event where
  type : Nat
  deriving DecidableEq

/-- The native Direct3D / DXGI calls the initialization code and the frame
loop can issue, used to record which calls a run attempts. -/
inductive D3DCall
  | d3d11CreateDevice
  | dxgiDeviceCast
  | getParentAdapter
  | getParentFactory
  | createSwapChain
  | getSwapChainBuffer
  | createRenderTargetView
  | createTexture2D
  | createDepthStencilView
  | omSetRenderTargets
  | rsSetViewports
  | clearRenderTargetView
  | clearDepthStencilView
  | present
  deriving DecidableEq

/-- Outcomes supplied by the native API for each call made during
initialization: the HRESULT each Direct3D / DXGI call returns, in source
order of the calls in src/main.cpp. -/
structure D3DEnv where
  deviceCreationResult : HRESULT
  dxgiDeviceCastResult : HRESULT
  idxgiAdapterRetrievalResult : HRESULT
  idxgiFactoryRetrievalResult : HRESULT
  swapChainCreationResult : HRESULT
  getSwapChainBufferResult : HRESULT
  createRenderTargetViewResult : HRESULT
  texture2dCreationResult : HRESULT
  depthStencilViewCreationResult : HRESULT
  deriving DecidableEq

/-- All nine native initialization calls report success. -/
def D3DEnv.allOk (env : D3DEnv) : Prop :=
  env.deviceCreationResult = S_OK ∧
  env.dxgiDeviceCastResult = S_OK ∧
  env.idxgiAdapterRetrievalResult = S_OK ∧
  env.idxgiFactoryRetrievalResult = S_OK ∧
  env.swapChainCreationResult = S_OK ∧
  env.getSwapChainBufferResult = S_OK ∧
  env.createRenderTargetViewResult = S_OK ∧
  env.texture2dCreationResult = S_OK ∧
  env.depthStencilViewCreationResult = S_OK

instance (env : D3DEnv) : Decidable env.allOk := by
  unfold D3DEnv.allOk; infer_instance

/-- DXGI format code `DXGI_FORMAT_R8G8B8A8_UNORM`. -/
def DXGI_FORMAT_R8G8B8A8_UNORM : Nat := 28

/-- DXGI format code `DXGI_FORMAT_D24_UNORM_S8_UINT`. -/
def DXGI_FORMAT_D24_UNORM_S8_UINT : Nat := 45

/-- `DXGI_MODE_SCANLINE_ORDER_UNSPECIFIED`. -/
def DXGI_MODE_SCANLINE_ORDER_UNSPECIFIED : Nat := 0

/-- `DXGI_MODE_SCALING_UNSPECIFIED`. -/
def DXGI_MODE_SCALING_UNSPECIFIED : Nat := 0

/-- `DXGI_USAGE_RENDER_TARGET_OUTPUT`. -/
def DXGI_USAGE_RENDER_TARGET_OUTPUT : Nat := 32

/-- `DXGI_SWAP_EFFECT_DISCARD`. -/
def DXGI_SWAP_EFFECT_DISCARD : Nat := 0

/-- `D3D11_USAGE_DEFAULT`. -/
def D3D11_USAGE_DEFAULT : Nat := 0

/-- `D3D11_BIND_DEPTH_STENCIL`. -/
def D3D11_BIND_DEPTH_STENCIL : Nat := 64

/-- The swap-chain descriptor `DXGI_SWAP_CHAIN_DESC` as filled in by
`InitializeSwapChain`.  The output window handle is an `Option Nat`: `none`
models a handle read from an uninitialized variable. -/
structure DXGI_SWAP_CHAIN_DESC where
  bufferWidth : Nat
  bufferHeight : Nat
  refreshRateNumerator : Nat
  refreshRateDenominator : Nat
  format : Nat
  scanlineOrdering : Nat
  scaling : Nat
  sampleCount : Nat
  sampleQuality : Nat
  bufferUsage : Nat
  bufferCount : Nat
  outputWindow : Option Nat
  windowed : Bool
  swapEffect : Nat
  flags : Nat
  deriving DecidableEq

/-- The descriptor values written field by field in `InitializeSwapChain`
(src/main.cpp): width and height 0 (sizing delegated to the window), 60/1
refresh, RGBA8 format, no multisampling, render-target usage, one buffer,
windowed, discard swap effect, no flags. -/
def swapChainDescFor (windowHandle : Option Nat) : DXGI_SWAP_CHAIN_DESC :=
  { bufferWidth := 0
    bufferHeight := 0
    refreshRateNumerator := 60
    refreshRateDenominator := 1
    format := DXGI_FORMAT_R8G8B8A8_UNORM
    scanlineOrdering := DXGI_MODE_SCANLINE_ORDER_UNSPECIFIED
    scaling := DXGI_MODE_SCALING_UNSPECIFIED
    sampleCount := 1
    sampleQuality := 0
    bufferUsage := DXGI_USAGE_RENDER_TARGET_OUTPUT
    bufferCount := 1
    outputWindow := windowHandle
    windowed := true
    swapEffect := DXGI_SWAP_EFFECT_DISCARD
    flags := 0 }

/-- The depth-stencil texture descriptor written in
`InitializeBackBufferAndDepthStencilView` (src/main.cpp): a 640 by 480
24-bit-depth, 8-bit-stencil texture, one mip level, no multisampling,
default usage, depth-stencil bind flag, no CPU access. -/
structure D3D11_TEXTURE2D_DESC where
  width : Nat
  height : Nat
  mipLevels : Nat
  arraySize : Nat
  format : Nat
  sampleCount : Nat
  sampleQuality : Nat
  usage : Nat
  bindFlags : Nat
  cpuAccessFlags : Nat
  miscFlags : Nat
  deriving DecidableEq

/-- The concrete `depthStencilDesc` values from the source. -/
def depthStencilDesc : D3D11_TEXTURE2D_DESC :=
  { width := 640
    height := 480
    mipLevels := 1
    arraySize := 1
    format := DXGI_FORMAT_D24_UNORM_S8_UINT
    sampleCount := 1
    sampleQuality := 0
    usage := D3D11_USAGE_DEFAULT
    bindFlags := D3D11_BIND_DEPTH_STENCIL
    cpuAccessFlags := 0
    miscFlags := 0 }

/-- The views the program can bind to the output-merger stage: the two
global view handles of src/main.cpp. -/
inductive ViewRef
  | mRenderTargetView
  | mDepthStencilView
  deriving DecidableEq

/-- Output-merger stage bindings: the list of bound render-target views and
the bound depth-stencil view, as set by `OMSetRenderTargets`. -/
structure OMState where
  renderTargets : List ViewRef
  depthStencil : Option ViewRef
  deriving DecidableEq

/-- The `D3D11_VIEWPORT` value.  All fields the source writes are exact
small numbers (integers cast to float, and 0.0f / 1.0f), so they are
modelled as rationals with no loss. -/
structure D3D11_VIEWPORT where
  topLeftX : Rat
  topLeftY : Rat
  width : Rat
  height : Rat
  minDepth : Rat
  maxDepth : Rat
  deriving DecidableEq

/-- The concrete viewport written in `InitializeViewport` (src/main.cpp):
origin 0,0, width 800, height 600, depth range 0.0 to 1.0. -/
def viewportDesc : D3D11_VIEWPORT :=
  { topLeftX := 0
    topLeftY := 0
    width := 800
    height := 600
    minDepth := 0
    maxDepth := 1 }

/-- Parameters of the `SDL_CreateWindow` call in `main` (src/main.cpp):
title "Rotating Cube", centered position, size 640 by 480, no flags.
`SDL_WINDOWPOS_CENTERED` is 0x2FFF0000. -/
structure WindowParams where
  title : String
  x : Nat
  y : Nat
  w : Nat
  h : Nat
  flags : Nat
  deriving DecidableEq

/-- The concrete window-creation arguments from the source. -/
def mainWindowParams : WindowParams :=
  { title := "Rotating Cube"
    x := 805240832
    y := 805240832
    w := 640
    h := 480
    flags := 0 }

/-- Result of one initialization step: success with a value, a thrown
`Direct3dException`, or undefined behavior (reachable only through the
out-of-bounds pointer arithmetic at the depth-texture throw site). -/
inductive InitStepResult (α : Type)
  | ok (a : α)
  | threw (e : Direct3dException)
  | undefinedBehavior
  deriving DecidableEq

/-- Embedding of `InitializeDeviceAndDeviceContext` (src/main.cpp): the
`D3D11CreateDevice` call returns `deviceCreationResult`; any value other
than `S_OK` throws a `Direct3dException` whose message appends
`std::to_string` of the status code to a fixed text. -/
def InitializeDeviceAndDeviceContext (env : D3DEnv) :
    Except Direct3dException Unit :=
  if env.deviceCreationResult ≠ S_OK then
    .error ⟨"Error initializing device or device context. Error code: " ++
      toString env.deviceCreationResult⟩
  else
    .ok ()

/-- Embedding of `InitializeSwapChain` (src/main.cpp): fills the swap-chain
descriptor, then walks the capability chain device → IDXGIDevice →
IDXGIAdapter → IDXGIFactory → CreateSwapChain, throwing at the first call
whose status code is not `S_OK`, with the message of that throw site
(typos of the source kept verbatim). -/
def InitializeSwapChain (env : D3DEnv) (windowHandle : Option Nat) :
    Except Direct3dException DXGI_SWAP_CHAIN_DESC :=
  if env.dxgiDeviceCastResult ≠ S_OK then
    .error ⟨"Failed to retrive interface for IDXGIDevice. Error code: " ++
      toString env.dxgiDeviceCastResult⟩
  else if env.idxgiAdapterRetrievalResult ≠ S_OK then
    .error ⟨"Failed to retrieve parent IDXGIAdapter from IDXGIDevice. Error code: " ++
      toString env.idxgiAdapterRetrievalResult⟩
  else if env.idxgiFactoryRetrievalResult ≠ S_OK then
    .error ⟨"Failed to retrieve parent IDXGIFactory from IDXGIFactory. Error code: " ++
      toString env.idxgiFactoryRetrievalResult⟩
  else if env.swapChainCreationResult ≠ S_OK then
    .error ⟨"Failed to create swapchain. Error code: " ++
      toString env.swapChainCreationResult⟩
  else
    .ok (swapChainDescFor windowHandle)

/-- The native calls `InitializeSwapChain` actually issues for a given
environment: each call happens only after every earlier call in the chain
returned `S_OK`, because each failure throws before the next call. -/
def swapChainCallsAttempted (env : D3DEnv) : List D3DCall :=
  if env.dxgiDeviceCastResult ≠ S_OK then
    [.dxgiDeviceCast]
  else if env.idxgiAdapterRetrievalResult ≠ S_OK then
    [.dxgiDeviceCast, .getParentAdapter]
  else if env.idxgiFactoryRetrievalResult ≠ S_OK then
    [.dxgiDeviceCast, .getParentAdapter, .getParentFactory]
  else
    [.dxgiDeviceCast, .getParentAdapter, .getParentFactory, .createSwapChain]

/-- Embedding of `InitializeBackBufferAndDepthStencilView` (src/main.cpp):
gets the back buffer, creates the render-target view, the depth-stencil
texture and the depth-stencil view, each checked independently, then binds
one render-target view and the depth-stencil view with
`OMSetRenderTargets(1, ..., ...)`.  The depth-texture throw site reads
`"literal" + texture2dCreationResult` in the source — pointer arithmetic on
the string literal, not `std::to_string` — which this embedding reproduces
through `charPtrAdd`. -/
def InitializeBackBufferAndDepthStencilView (env : D3DEnv) :
    InitStepResult OMState :=
  if env.getSwapChainBufferResult ≠ S_OK then
    .threw ⟨"Failed to retrieve swapchain back buffer. Error Code" ++
      toString env.getSwapChainBufferResult⟩
  else if env.createRenderTargetViewResult ≠ S_OK then
    .threw ⟨"Failed to create render target view. Error Code: " ++
      toString env.createRenderTargetViewResult⟩
  else if env.texture2dCreationResult ≠ S_OK then
    match charPtrAdd "Failed to create 2D texture for depth stencil buffer. Error Code: "
        env.texture2dCreationResult with
    | some s => .threw ⟨s⟩
    | none => .undefinedBehavior
  else if env.depthStencilViewCreationResult ≠ S_OK then
    .threw ⟨"Failed to create depth stencil view. Error Code: " ++
      toString env.depthStencilViewCreationResult⟩
  else
    .ok { renderTargets := [.mRenderTargetView]
          depthStencil := some .mDepthStencilView }

/-- State of the graphics pipeline visible to the claims: the output-merger
bindings, the bound viewports, the created swap-chain descriptor, and
counters of the clear and present calls the frame loop has issued. -/
structure D3DState where
  om : OMState
  viewports : List D3D11_VIEWPORT
  swapChainDesc : DXGI_SWAP_CHAIN_DESC
  renderTargetClears : Nat
  depthStencilClears : Nat
  presents : Nat
  deriving DecidableEq

/-- Embedding of `InitializeViewport` (src/main.cpp):
`RSSetViewports(1, &vp)` binds the single viewport `viewportDesc`. -/
def InitializeViewport (st : D3DState) : D3DState :=
  { st with viewports := [viewportDesc] }

/-- Embedding of `InitializeDirect3d` (src/main.cpp): runs the four
initializers in order; a `Direct3dException` thrown by any of them
propagates out uncaught (there is no try/catch inside the chain). -/
def InitializeDirect3d (env : D3DEnv) (windowHandle : Option Nat) :
    InitStepResult D3DState :=
  match InitializeDeviceAndDeviceContext env with
  | .error e => .threw e
  | .ok _ =>
    match InitializeSwapChain env windowHandle with
    | .error e => .threw e
    | .ok scd =>
      match InitializeBackBufferAndDepthStencilView env with
      | .threw e => .threw e
      | .undefinedBehavior => .undefinedBehavior
      | .ok om =>
        .ok (InitializeViewport
          { om := om
            viewports := []
            swapChainDesc := scd
            renderTargetClears := 0
            depthStencilClears := 0
            presents := 0 })

/-- The fully initialized pipeline state `InitializeDirect3d` produces when
every native call succeeds. -/
def fullInitState (windowHandle : Option Nat) : D3DState :=
  { om := { renderTargets := [.mRenderTargetView]
            depthStencil := some .mDepthStencilView }
    viewports := [viewportDesc]
    swapChainDesc := swapChainDescFor windowHandle
    renderTargetClears := 0
    depthStencilClears := 0
    presents := 0 }

/-- The quit test performed after `SDL_PollEvent` in the frame loop of
`main`: the polled event (if any) sets `quit` exactly when its type is
`SDL_QUIT`.  `none` models `SDL_PollEvent` returning 0 (no event). -/
def pollQuit : Option SDL_Event → Bool
  | some e => e.type == SDL_QUIT
  | none => false

/-- One execution of the frame-loop body after the event poll: clears the
render target (`ClearRenderTargetView`), clears the depth-stencil view
(`ClearDepthStencilView` with depth 1.0 and stencil 0), and presents
(`Present(0, 0)`).  None of these calls changes the output-merger bindings,
the viewport, or the swap-chain descriptor; the state only counts them. -/
def frameBody (st : D3DState) : D3DState :=
  { st with
    renderTargetClears := st.renderTargetClears + 1
    depthStencilClears := st.depthStencilClears + 1
    presents := st.presents + 1 }

/-- The frame loop of `main` (src/main.cpp): `while (!quit)` polls at most
one event, possibly sets `quit`, then unconditionally runs the body
(clear, clear, present) before re-testing `quit`.  The input list gives the
outcome of each successive `SDL_PollEvent` call; if it is exhausted before
a quit event is polled, the loop never exits, modelled as `none`. -/
def frameLoop : List (Option SDL_Event) → D3DState → Option D3DState
  | [], _ => none
  | p :: rest, st =>
    if pollQuit p then some (frameBody st) else frameLoop rest (frameBody st)

/-- The frame loop viewed as a two-state machine.  `Running` is the loop
with `quit == false`; `Quit` is reached once `quit` has been set, after
which the loop exits and no further transition occurs. -/
inductive LoopState
  | Running
  | Quit
  deriving DecidableEq

/-- The transition of the frame-loop state machine, one event poll per
step, as performed by the loop body of `main`. -/
def loopTransition : LoopState → Option SDL_Event → LoopState
  | .Running, p => if pollQuit p then .Quit else .Running
  | .Quit, _ => .Quit

/-- Outcomes the whole platform environment supplies to one run of `main`:
the SDL initialization result, whether window creation succeeds, whether
the window-manager info query succeeds (its return value is read by nobody
in the source), the native window handle it would yield, the Direct3D call
results, and the successive event-poll outcomes. -/
structure Env where
  sdlInitResult : Int
  sdlInitError : String
  createWindowOk : Bool
  createWindowError : String
  wmInfoOk : Bool
  nativeWindowHandle : Nat
  d3d : D3DEnv
  polls : List (Option SDL_Event)

/-- How the run of the process ends: `exit code`, an endless frame loop, or
undefined behavior reached during initialization. -/
inductive ProcResult
  | exit (code : Int)
  | diverge
  | undefinedBehavior
  deriving DecidableEq

/-- Observable outcome of a run of `main`: the `SDL_Log` lines written, the
window-handle argument passed to `InitializeDirect3d` (`none` when that
call was never reached), the final pipeline state when the loop exited
cleanly, and how the process ended. -/
structure MainOutcome where
  log : List String
  d3dHandleArg : Option (Option Nat)
  finalState : Option D3DState
  result : ProcResult

/-- The window handle `main` reads from `systemInformation.info.win.window`
after `SDL_GetWindowWMInfo`: the real handle when that query succeeded, an
indeterminate (uninitialized) value, modelled `none`, when it failed.  The
source never checks the return value of the query. -/
def windowHandleOf (env : Env) : Option Nat :=
  if env.wmInfoOk then some env.nativeWindowHandle else none

/-- The progress lines `main` logs before entering the try block. -/
def startupLog : List String :=
  ["SDL initialized...", "Initializing main window...",
   "Main application window created...", "Initializing Direct3D..."]

/-- Embedding of `main` (src/main.cpp): initialize SDL (return 1 on
failure), create the window (return 1 on failure), read the native window
handle without checking the query result, run `InitializeDirect3d` inside
a try/catch whose catch logs the exception text and returns 1, then run
the frame loop and finally return 0. -/
def mainRun (env : Env) : MainOutcome :=
  if env.sdlInitResult ≠ 0 then
    { log := ["Unable to initialize SDL: " ++ env.sdlInitError]
      d3dHandleArg := none
      finalState := none
      result := .exit 1 }
  else if env.createWindowOk = false then
    { log := ["SDL initialized...", "Initializing main window...",
        "Unable to create main application window: " ++ env.createWindowError]
      d3dHandleArg := none
      finalState := none
      result := .exit 1 }
  else
    match InitializeDirect3d env.d3d (windowHandleOf env) with
    | .threw e =>
      { log := startupLog ++
          ["An error occured initialization Direct3D: " ++ e.what]
        d3dHandleArg := some (windowHandleOf env)
        finalState := none
        result := .exit 1 }
    | .undefinedBehavior =>
      { log := startupLog
        d3dHandleArg := some (windowHandleOf env)
        finalState := none
        result := .undefinedBehavior }
    | .ok st =>
      match frameLoop env.polls st with
      | some stFinal =>
        { log := startupLog
          d3dHandleArg := some (windowHandleOf env)
          finalState := some stFinal
          result := .exit 0 }
      | none =>
        { log := startupLog
          d3dHandleArg := some (windowHandleOf env)
          finalState := none
          result := .diverge }

/-- A Direct3D environment in which all nine native calls succeed. -/
def d3dEnvAllOk : D3DEnv :=
  { deviceCreationResult := 0
    dxgiDeviceCastResult := 0
    idxgiAdapterRetrievalResult := 0
    idxgiFactoryRetrievalResult := 0
    swapChainCreationResult := 0
    getSwapChainBufferResult := 0
    createRenderTargetViewResult := 0
    texture2dCreationResult := 0
    depthStencilViewCreationResult := 0 }

/-- An event of type `SDL_QUIT`. -/
def quitEvent : SDL_Event := { type := SDL_QUIT }

/-- A fully successful run whose very first event poll yields a quit
event. -/
def envQuitFirstPoll : Env :=
  { sdlInitResult := 0
    sdlInitError := ""
    createWindowOk := true
    createWindowError := ""
    wmInfoOk := true
    nativeWindowHandle := 42
    d3d := d3dEnvAllOk
    polls := [some quitEvent] }

/-- A run in which device creation fails with the status code 0x887A0004
(DXGI_ERROR_DEVICE_REMOVED) and everything else would succeed. -/
def envDeviceRemoved : Env :=
  { envQuitFirstPoll with
    d3d := { d3dEnvAllOk with
      deviceCreationResult := hresultOfBits 0x887A0004 } }

/-- A run in which creating the depth-stencil texture fails with the
status code 0x80004005 (E_FAIL) and everything else would succeed. -/
def envTexture2DFail : Env :=
  { envQuitFirstPoll with
    d3d := { d3dEnvAllOk with
      texture2dCreationResult := hresultOfBits 0x80004005 } }

/-- A successful run in which the window-manager info query fails, so the
window handle passed on to Direct3D initialization is indeterminate. -/
def envWmInfoFail : Env :=
  { envQuitFirstPoll with wmInfoOk := false }

/-- A Direct3D environment in which the query for the IDXGIDevice
interface fails with E_FAIL (0x80004005) and everything else succeeds. -/
def d3dEnvCastFail : D3DEnv :=
  { d3dEnvAllOk with dxgiDeviceCastResult := hresultOfBits 0x80004005 }

/- ======================== Theorems ======================== -/

theorem strContains_append_self (s pat : String) : strContains (s ++ pat) pat := by
  unfold strContains
  rw [String.data_append]
  exact List.IsSuffix.isInfix (List.suffix_append s.data pat.data)

theorem strContains_of_append_left (s t pat : String)
    (h : strContains t pat) : strContains (s ++ t) pat := by
  unfold strContains at h ⊢
  rw [String.data_append]
  exact List.IsInfix.trans h (List.IsSuffix.isInfix (List.suffix_append s.data t.data))

theorem initializeDirect3d_allOk (env : D3DEnv) (wh : Option Nat)
    (hok : env.allOk) : InitializeDirect3d env wh = .ok (fullInitState wh) := by
  obtain ⟨h1, h2, h3, h4, h5, h6, h7, h8, h9⟩ := hok
  simp [InitializeDirect3d, InitializeDeviceAndDeviceContext, InitializeSwapChain,
    InitializeBackBufferAndDepthStencilView, InitializeViewport, fullInitState,
    h1, h2, h3, h4, h5, h6, h7, h8, h9]

theorem initializeBackBuffer_ok_eq (env : D3DEnv) (om : OMState)
    (h : InitializeBackBufferAndDepthStencilView env = .ok om) :
    om = { renderTargets := [.mRenderTargetView],
           depthStencil := some .mDepthStencilView } := by
  unfold InitializeBackBufferAndDepthStencilView at h
  split_ifs at h <;> try simp_all
  split at h <;> simp_all

theorem initializeSwapChain_ok_eq (env : D3DEnv) (wh : Option Nat)
    (scd : DXGI_SWAP_CHAIN_DESC) (h : InitializeSwapChain env wh = .ok scd) :
    scd = swapChainDescFor wh := by
  unfold InitializeSwapChain at h
  split_ifs at h <;> simp_all [swapChainDescFor]

theorem initializeDirect3d_ok_eq (env : D3DEnv) (wh : Option Nat) (st : D3DState)
    (hok : InitializeDirect3d env wh = .ok st) : st = fullInitState wh := by
  unfold InitializeDirect3d at hok
  cases hd : InitializeDeviceAndDeviceContext env with
  | error e => rw [hd] at hok; simp at hok
  | ok u =>
    rw [hd] at hok
    cases hs : InitializeSwapChain env wh with
    | error e => rw [hs] at hok; simp at hok
    | ok scd =>
      rw [hs] at hok
      cases hb : InitializeBackBufferAndDepthStencilView env with
      | threw e => rw [hb] at hok; simp at hok
      | undefinedBehavior => rw [hb] at hok; simp at hok
      | ok om =>
        rw [hb] at hok
        simp only [InitStepResult.ok.injEq] at hok
        have hom := initializeBackBuffer_ok_eq env om hb
        have hscd := initializeSwapChain_ok_eq env wh scd hs
        subst hom hscd
        rw [← hok]
        rfl

theorem initializeDirect3d_deviceFail (env : D3DEnv) (wh : Option Nat)
    (hne : env.deviceCreationResult ≠ S_OK) :
    InitializeDirect3d env wh =
      .threw ⟨"Error initializing device or device context. Error code: " ++
        toString env.deviceCreationResult⟩ := by
  simp [InitializeDirect3d, InitializeDeviceAndDeviceContext, hne]

theorem frameLoop_om_eq (polls : List (Option SDL_Event)) :
    ∀ (st stF : D3DState), frameLoop polls st = some stF → stF.om = st.om := by
  induction polls with
  | nil =>
    intro st stF hl
    simp [frameLoop] at hl
  | cons p rest ih =>
    intro st stF hl
    simp only [frameLoop] at hl
    split at hl
    · cases hl
      simp [frameBody]
    · have hrec := ih (frameBody st) stF hl
      simpa [frameBody] using hrec

/-- C9: for every message string `m`, constructing a `Direct3dException`
with `m` and calling `what()` on it yields exactly the characters of `m`:
the constructor stores its argument in `m_errorMessage` unchanged and
`what()` returns it. -/
theorem direct3dException_what_id (m : String) :
    (Direct3dException.mk m).what = m := rfl

/-- C2: for every status code other than `S_OK` returned by
`D3D11CreateDevice`, `InitializeDeviceAndDeviceContext` throws the
`Direct3dException` whose message contains that status code (printed by
`std::to_string`, that is, in signed decimal); and in the scenario where
device creation returns 0x887A0004 after SDL and the window came up, the
process logs a message containing that code and exits with status 1. -/
theorem deviceCreationFailure_raises_with_code :
    (∀ env : D3DEnv, env.deviceCreationResult ≠ S_OK →
      ∃ e, InitializeDeviceAndDeviceContext env = Except.error e ∧
        strContains e.what (toString env.deviceCreationResult)) ∧
    (∀ env : Env, env.sdlInitResult = 0 → env.createWindowOk = true →
      env.d3d.deviceCreationResult = hresultOfBits 0x887A0004 →
      (mainRun env).result = ProcResult.exit 1 ∧
      ∃ m ∈ (mainRun env).log,
        strContains m (toString (hresultOfBits 0x887A0004))) := by
  constructor
  · intro env hne
    refine ⟨⟨"Error initializing device or device context. Error code: " ++
      toString env.deviceCreationResult⟩, ?_, ?_⟩
    · simp [InitializeDeviceAndDeviceContext, hne]
    · exact strContains_append_self _ _
  · intro env h1 h2 h3
    have hne : env.d3d.deviceCreationResult ≠ S_OK := by
      rw [h3]; decide
    have hinit := initializeDirect3d_deviceFail env.d3d (windowHandleOf env) hne
    constructor
    · simp [mainRun, h1, h2, hinit]
    · refine ⟨"An error occured initialization Direct3D: " ++
        ("Error initializing device or device context. Error code: " ++
          toString env.d3d.deviceCreationResult), ?_, ?_⟩
      · simp [mainRun, h1, h2, hinit, startupLog, Direct3dException.what]
      · rw [h3]
        exact strContains_of_append_left _ _ _ (strContains_append_self _ _)

/-- Witness for C2: the concrete run `envDeviceRemoved` (device creation
returns 0x887A0004) exits with status 1 and logs the code, and the
initializer raises an exception whose message contains the code. -/
theorem deviceCreationFailure_raises_with_code_witness :
    ((mainRun envDeviceRemoved).result = ProcResult.exit 1 ∧
      ∃ m ∈ (mainRun envDeviceRemoved).log,
        strContains m (toString (hresultOfBits 0x887A0004))) ∧
    ∃ e, InitializeDeviceAndDeviceContext envDeviceRemoved.d3d = Except.error e ∧
      strContains e.what (toString envDeviceRemoved.d3d.deviceCreationResult) :=
  ⟨deviceCreationFailure_raises_with_code.2 envDeviceRemoved rfl rfl rfl,
   deviceCreationFailure_raises_with_code.1 envDeviceRemoved.d3d (by decide)⟩

/-- C4: in the capability-discovery chain of `InitializeSwapChain`
(device cast to IDXGIDevice, parent IDXGIAdapter, parent IDXGIFactory,
CreateSwapChain), a step returning a status other than `S_OK` makes the
initializer throw at that step, and no later call of the chain is
attempted; in particular a failing device cast never attempts the adapter
query.  When all steps succeed all four calls run and the swap chain is
created. -/
theorem swapChain_chain_failsFast (env : D3DEnv) (wh : Option Nat) :
    (env.dxgiDeviceCastResult ≠ S_OK →
      swapChainCallsAttempted env = [D3DCall.dxgiDeviceCast] ∧
      D3DCall.getParentAdapter ∉ swapChainCallsAttempted env ∧
      ∃ e, InitializeSwapChain env wh = Except.error e) ∧
    (env.dxgiDeviceCastResult = S_OK → env.idxgiAdapterRetrievalResult ≠ S_OK →
      swapChainCallsAttempted env =
        [D3DCall.dxgiDeviceCast, D3DCall.getParentAdapter] ∧
      D3DCall.getParentFactory ∉ swapChainCallsAttempted env ∧
      ∃ e, InitializeSwapChain env wh = Except.error e) ∧
    (env.dxgiDeviceCastResult = S_OK → env.idxgiAdapterRetrievalResult = S_OK →
      env.idxgiFactoryRetrievalResult ≠ S_OK →
      swapChainCallsAttempted env =
        [D3DCall.dxgiDeviceCast, D3DCall.getParentAdapter,
         D3DCall.getParentFactory] ∧
      D3DCall.createSwapChain ∉ swapChainCallsAttempted env ∧
      ∃ e, InitializeSwapChain env wh = Except.error e) ∧
    (env.dxgiDeviceCastResult = S_OK → env.idxgiAdapterRetrievalResult = S_OK →
      env.idxgiFactoryRetrievalResult = S_OK →
      env.swapChainCreationResult ≠ S_OK →
      swapChainCallsAttempted env =
        [D3DCall.dxgiDeviceCast, D3DCall.getParentAdapter,
         D3DCall.getParentFactory, D3DCall.createSwapChain] ∧
      ∃ e, InitializeSwapChain env wh = Except.error e) ∧
    (env.dxgiDeviceCastResult = S_OK → env.idxgiAdapterRetrievalResult = S_OK →
      env.idxgiFactoryRetrievalResult = S_OK →
      env.swapChainCreationResult = S_OK →
      swapChainCallsAttempted env =
        [D3DCall.dxgiDeviceCast, D3DCall.getParentAdapter,
         D3DCall.getParentFactory, D3DCall.createSwapChain] ∧
      InitializeSwapChain env wh = Except.ok (swapChainDescFor wh)) := by
  refine ⟨?_, ?_, ?_, ?_, ?_⟩ <;> intros <;>
    simp_all [swapChainCallsAttempted, InitializeSwapChain]

/-- Witness for C4: with a failing device cast (E_FAIL) only that call is
attempted, the adapter query is not, and the initializer throws. -/
theorem swapChain_chain_failsFast_witness :
    swapChainCallsAttempted d3dEnvCastFail = [D3DCall.dxgiDeviceCast] ∧
    D3DCall.getParentAdapter ∉ swapChainCallsAttempted d3dEnvCastFail ∧
    ∃ e, InitializeSwapChain d3dEnvCastFail none = Except.error e :=
  (swapChain_chain_failsFast d3dEnvCastFail none).1 (by decide)

/-- C6: the frame loop is the two-state machine with states Running and
Quit whose only transition to Quit is polling a quit event: from Running,
the state becomes Quit exactly when the poll yields an event of type
`SDL_QUIT`; any other event or an empty poll leaves it Running; and the
loop of `main` steps by exactly this transition, running the body once and
exiting after the iteration whose transition reached Quit. -/
theorem frameLoop_quit_transition (p : Option SDL_Event)
    (rest : List (Option SDL_Event)) (st : D3DState) :
    (loopTransition LoopState.Running p = LoopState.Quit ↔
      ∃ e, p = some e ∧ e.type = SDL_QUIT) ∧
    (loopTransition LoopState.Running p = LoopState.Running ↔
      ¬ ∃ e, p = some e ∧ e.type = SDL_QUIT) ∧
    (loopTransition LoopState.Quit p = LoopState.Quit) ∧
    (frameLoop (p :: rest) st =
      if loopTransition LoopState.Running p = LoopState.Quit then
        some (frameBody st)
      else
        frameLoop rest (frameBody st)) := by
  refine ⟨?_, ?_, rfl, ?_⟩
  · cases p with
    | none => simp [loopTransition, pollQuit]
    | some e =>
      by_cases he : e.type = SDL_QUIT <;> simp [loopTransition, pollQuit, he]
  · cases p with
    | none => simp [loopTransition, pollQuit]
    | some e =>
      by_cases he : e.type = SDL_QUIT <;> simp [loopTransition, pollQuit, he]
  · by_cases hq : pollQuit p = true <;>
      simp [frameLoop, loopTransition, hq]

/-- Witness for C6: polling a quit event from Running reaches Quit, while
an empty poll and a non-quit event stay Running. -/
theorem frameLoop_quit_transition_witness :
    loopTransition LoopState.Running (some quitEvent) = LoopState.Quit ∧
    loopTransition LoopState.Running none = LoopState.Running ∧
    loopTransition LoopState.Running (some { type := 0 }) =
      LoopState.Running :=
  ⟨(frameLoop_quit_transition (some quitEvent) [] (fullInitState none)).1.mpr
      ⟨quitEvent, rfl, rfl⟩,
   (frameLoop_quit_transition none [] (fullInitState none)).2.1.mpr
      (by simp),
   (frameLoop_quit_transition (some { type := 0 }) [] (fullInitState none)).2.1.mpr
      (by simp [SDL_QUIT])⟩

/-- C7: whenever `InitializeDirect3d` succeeds, the resulting pipeline
state has exactly one render-target view and the depth-stencil view bound
to the output-merger stage (the `OMSetRenderTargets(1, ...)` call), and the
frame-loop body (clear, clear, present) never changes that binding, so it
still holds whenever the loop issues its clear and present calls and when
the loop exits. -/
theorem om_binding_after_init (env : D3DEnv) (wh : Option Nat) (st : D3DState)
    (hok : InitializeDirect3d env wh = InitStepResult.ok st) :
    st.om.renderTargets = [ViewRef.mRenderTargetView] ∧
    st.om.renderTargets.length = 1 ∧
    st.om.depthStencil = some ViewRef.mDepthStencilView ∧
    (frameBody st).om = st.om ∧
    ∀ (polls : List (Option SDL_Event)) (stF : D3DState),
      frameLoop polls st = some stF → stF.om = st.om := by
  have hst := initializeDirect3d_ok_eq env wh st hok
  subst hst
  refine ⟨rfl, rfl, rfl, rfl, ?_⟩
  intro polls stF hF
  exact frameLoop_om_eq polls _ stF hF

/-- Witness for C7: the successful environment yields the state binding
exactly the render-target view and the depth-stencil view. -/
theorem om_binding_after_init_witness :
    (fullInitState (some 42)).om.renderTargets =
      [ViewRef.mRenderTargetView] ∧
    (fullInitState (some 42)).om.depthStencil =
      some ViewRef.mDepthStencilView :=
  ⟨(om_binding_after_init d3dEnvAllOk (some 42) (fullInitState (some 42))
      (initializeDirect3d_allOk d3dEnvAllOk (some 42) (by decide))).1,
   (om_binding_after_init d3dEnvAllOk (some 42) (fullInitState (some 42))
      (initializeDirect3d_allOk d3dEnvAllOk (some 42) (by decide))).2.2.1⟩

theorem mainRun_handleArg (env : Env) (h1 : env.sdlInitResult = 0)
    (h2 : env.createWindowOk = true) :
    (mainRun env).d3dHandleArg = some (windowHandleOf env) := by
  unfold mainRun
  rw [h1, h2]
  rw [if_neg (by simp : ¬ ((0 : Int) ≠ 0))]
  rw [if_neg (by simp : ¬ (true = false))]
  split
  · rfl
  · rfl
  · split <;> rfl

/-- C10: `main` never checks the return value of `SDL_GetWindowWMInfo`:
when SDL and window creation succeed but that query fails, Direct3D
initialization is still attempted, and with the indeterminate handle
(rather than the real one); the run does not take the failure path, so
with otherwise successful native calls the exit status is never 1. -/
theorem wmInfoResult_unchecked (env : Env)
    (h1 : env.sdlInitResult = 0) (h2 : env.createWindowOk = true)
    (h3 : env.wmInfoOk = false) :
    (mainRun env).d3dHandleArg = some none ∧
    (env.d3d.allOk → (mainRun env).result ≠ ProcResult.exit 1) := by
  have hw : windowHandleOf env = none := by simp [windowHandleOf, h3]
  constructor
  · rw [mainRun_handleArg env h1 h2, hw]
  · intro hok
    have hinit := initializeDirect3d_allOk env.d3d (windowHandleOf env) hok
    cases hF : frameLoop env.polls (fullInitState (windowHandleOf env)) <;>
      simp [mainRun, h1, h2, hinit, hF]

/-- Witness for C10: in the concrete run whose window-manager query fails,
Direct3D initialization is attempted with the indeterminate handle and the
process does not exit with status 1. -/
theorem wmInfoResult_unchecked_witness :
    (mainRun envWmInfoFail).d3dHandleArg = some none ∧
    (mainRun envWmInfoFail).result ≠ ProcResult.exit 1 :=
  ⟨(wmInfoResult_unchecked envWmInfoFail rfl rfl rfl).1,
   (wmInfoResult_unchecked envWmInfoFail rfl rfl rfl).2 (by decide)⟩

/-- C1 (counterexample to the claimed zero cycles): in the concrete run
where all initialization succeeds and the very first poll yields a quit
event, the loop still executes its body once before the `while (!quit)`
test exits it, so the run performs one render-target clear, one
depth-stencil clear and one present — not zero — and exits with status
0. -/
theorem quitFirstPoll_notZeroCycles_cex :
    (mainRun envQuitFirstPoll).result = ProcResult.exit 0 ∧
    (mainRun envQuitFirstPoll).finalState.map D3DState.renderTargetClears =
      some 1 ∧
    (mainRun envQuitFirstPoll).finalState.map D3DState.depthStencilClears =
      some 1 ∧
    (mainRun envQuitFirstPoll).finalState.map D3DState.presents = some 1 ∧
    ¬ (mainRun envQuitFirstPoll).finalState.map D3DState.presents =
      some 0 := by
  refine ⟨rfl, rfl, rfl, rfl, by decide⟩

/-- C1 (amended): if all initialization succeeds and the very first poll
of the event queue yields a quit event, the loop performs exactly one
clear/present cycle (one render-target clear, one depth-stencil clear, one
present) before exiting with status 0: the poll sets `quit`, but the body
of that same iteration still clears and presents before the loop condition
is re-tested. -/
theorem quitFirstPoll_oneClearPresentCycle (env : Env) (e : SDL_Event)
    (rest : List (Option SDL_Event))
    (h1 : env.sdlInitResult = 0) (h2 : env.createWindowOk = true)
    (hok : env.d3d.allOk) (hp : env.polls = some e :: rest)
    (hq : e.type = SDL_QUIT) :
    (mainRun env).result = ProcResult.exit 0 ∧
    (mainRun env).finalState.map D3DState.renderTargetClears = some 1 ∧
    (mainRun env).finalState.map D3DState.depthStencilClears = some 1 ∧
    (mainRun env).finalState.map D3DState.presents = some 1 := by
  have hinit := initializeDirect3d_allOk env.d3d (windowHandleOf env) hok
  have hpq : pollQuit (some e) = true := by simp [pollQuit, hq]
  have hloop : frameLoop env.polls (fullInitState (windowHandleOf env)) =
      some (frameBody (fullInitState (windowHandleOf env))) := by
    rw [hp]
    simp [frameLoop, hpq]
  unfold mainRun
  rw [h1, h2]
  rw [if_neg (by simp : ¬ ((0 : Int) ≠ 0))]
  rw [if_neg (by simp : ¬ (true = false))]
  simp only [hinit]
  simp only [hloop]
  simp [frameBody, fullInitState]

/-- Witness for C1 (amended): the concrete quit-on-first-poll run exits
with status 0 after exactly one present. -/
theorem quitFirstPoll_oneClearPresentCycle_witness :
    (mainRun envQuitFirstPoll).result = ProcResult.exit 0 ∧
    (mainRun envQuitFirstPoll).finalState.map D3DState.presents = some 1 :=
  ⟨(quitFirstPoll_oneClearPresentCycle envQuitFirstPoll quitEvent []
      rfl rfl (by decide) rfl rfl).1,
   (quitFirstPoll_oneClearPresentCycle envQuitFirstPoll quitEvent []
      rfl rfl (by decide) rfl rfl).2.2.2⟩

/-- C3 (code bug): the throw site for a failing `CreateTexture2D` reads
`"Failed to create 2D texture for depth stencil buffer. Error Code: " +
texture2dCreationResult` — pointer arithmetic on the string literal, with
no `std::to_string` as at the other three sites — so for an actual failure
code such as E_FAIL (0x80004005, negative as signed) the pointer lands far
outside the literal and the behavior is undefined; the exception carrying
the step name and the numeric code is never produced. -/
theorem texture2dThrow_pointerArithmetic_ub :
    charPtrAdd
      "Failed to create 2D texture for depth stencil buffer. Error Code: "
      (hresultOfBits 0x80004005) = none ∧
    InitializeBackBufferAndDepthStencilView envTexture2DFail.d3d =
      InitStepResult.undefinedBehavior ∧
    InitializeDirect3d envTexture2DFail.d3d (some 42) =
      InitStepResult.undefinedBehavior := by
  refine ⟨?_, ?_, ?_⟩ <;> decide

/-- C5 (code bug): the exit-code contract — status 1 exactly when a
startup step fails, every Direct3D initialization failure caught once at
top level — is broken by the depth-texture throw site: in the run where
`CreateTexture2D` fails with E_FAIL and everything else succeeds, the
process reaches undefined behavior instead of the guaranteed logged exit
with status 1. -/
theorem texture2dFailure_breaks_exitCode_contract :
    (mainRun envTexture2DFail).result = ProcResult.undefinedBehavior ∧
    ¬ (mainRun envTexture2DFail).result = ProcResult.exit 1 := by
  decide

/-- C8 (counterexample to mutual inconsistency): the three fixed sizes are
not mutually inconsistent, because the window (640 by 480) and the
depth-stencil texture (640 by 480) are exactly equal; only the viewport
(800 by 600) disagrees with the other two. -/
theorem windowDepthSizesEqual_cex :
    (mainWindowParams.w, mainWindowParams.h) =
      (depthStencilDesc.width, depthStencilDesc.height) ∧
    ¬ ((mainWindowParams.w, mainWindowParams.h) ≠
        (depthStencilDesc.width, depthStencilDesc.height) ∧
       (viewportDesc.width, viewportDesc.height) ≠
        ((mainWindowParams.w : Rat), (mainWindowParams.h : Rat)) ∧
       (viewportDesc.width, viewportDesc.height) ≠
        ((depthStencilDesc.width : Rat), (depthStencilDesc.height : Rat))) := by
  constructor
  · rfl
  · intro hcl
    exact hcl.1 rfl

/-- C8 (amended): the program uses three fixed sizes — window 640 by 480,
depth-stencil texture 640 by 480, viewport 800 by 600 with full depth
range 0.0 to 1.0 — of which the window and the depth-stencil texture
agree, while the viewport is inconsistent with both. -/
theorem threeSizes_amended :
    mainWindowParams.w = 640 ∧ mainWindowParams.h = 480 ∧
    depthStencilDesc.width = 640 ∧ depthStencilDesc.height = 480 ∧
    viewportDesc.width = 800 ∧ viewportDesc.height = 600 ∧
    viewportDesc.minDepth = 0 ∧ viewportDesc.maxDepth = 1 ∧
    (mainWindowParams.w, mainWindowParams.h) =
      (depthStencilDesc.width, depthStencilDesc.height) ∧
    (viewportDesc.width, viewportDesc.height) ≠
      ((mainWindowParams.w : Rat), (mainWindowParams.h : Rat)) ∧
    (viewportDesc.width, viewportDesc.height) ≠
      ((depthStencilDesc.width : Rat), (depthStencilDesc.height : Rat)) := by
  refine ⟨rfl, rfl, rfl, rfl, rfl, rfl, rfl, rfl, rfl, ?_, ?_⟩ <;>
    norm_num [viewportDesc, mainWindowParams, depthStencilDesc, Prod.ext_iff]
